import Mathlib

/-!
Verification of the indicator-computation and categorization pipeline of the
yfinance stock-monitor repository.

The definitions below are a shallow embedding of the Python source:

* `StockMonitor.Dashboard` embeds `calculate_technical_indicators` from
  `advanced_streamlit_dashboard.py` (moving averages, RSI, Bollinger Bands,
  MACD), modelling pandas Series columns as `List (Option ℚ)` (an entry is
  `none` exactly where pandas produces NaN) and float arithmetic as exact
  rational arithmetic, except for the Bollinger standard deviation whose
  square root lives in `ℝ`.
* `StockMonitor.Exporter` embeds the `_categorize_*` helpers and the
  volatility computation of `looker_studio_exporter.py`.
* `StockMonitor.Optimized` embeds the `_categorize_*` helpers of
  `looker_studio_optimized.py`.
-/

namespace StockMonitor

namespace Dashboard

/-- Embedding of `series.rolling(window=w).mean()` (pandas default
`min_periods = window`): index `i` holds the arithmetic mean of the trailing
`w` entries once `w` observations exist, and NaN (`none`) before that.
Used for `MA_5`, `MA_20`, `MA_50`, `BB_Middle` and the RSI gain/loss
averages in `calculate_technical_indicators`. -/
def rollingMean (w : ℕ) (xs : List ℚ) : List (Option ℚ) :=
  (List.range xs.length).map fun i =>
    if i + 1 < w then none
    else some (((xs.take (i + 1)).drop (i + 1 - w)).sum / (w : ℚ))

/-- Embedding of `series.rolling(window=w).std()` squared, i.e. the rolling
sample variance (pandas default `ddof = 1`, denominator `w - 1`), with the
same NaN gating as `rollingMean`.  The square root is taken in `ℝ` by
`bbStd` below. -/
def rollingVar (w : ℕ) (xs : List ℚ) : List (Option ℚ) :=
  (List.range xs.length).map fun i =>
    if i + 1 < w then none
    else
      let win := (xs.take (i + 1)).drop (i + 1 - w)
      let m := win.sum / (w : ℚ)
      some ((win.map fun x => (x - m) ^ 2).sum / ((w : ℚ) - 1))

/-- Embedding of `delta.where(delta > 0, 0)` applied to
`delta = df['Close'].diff()`.  `diff()` leaves NaN at index 0; the condition
`NaN > 0` evaluates to False in pandas, so `where` replaces it by `0`, which
is the leading `0 ::` here.  For `i ≥ 1` the entry is `delta i` if positive,
else `0`. -/
def gainRaw (xs : List ℚ) : List ℚ :=
  match xs with
  | [] => []
  | _ :: tail =>
    0 :: List.zipWith (fun cur prev => if 0 < cur - prev then cur - prev else 0) tail xs

/-- Embedding of `-delta.where(delta < 0, 0)`: the magnitude of the negative
bar-to-bar difference, `0` elsewhere (including the NaN-turned-0 at index 0,
as in `gainRaw`). -/
def lossRaw (xs : List ℚ) : List ℚ :=
  match xs with
  | [] => []
  | _ :: tail =>
    0 :: List.zipWith (fun cur prev => if cur - prev < 0 then -(cur - prev) else 0) tail xs

/-- One entry of `100 - (100 / (1 + gain/loss))` under IEEE-float semantics,
which the Python source relies on: when `loss = 0` and `gain > 0`, the float
quotient `gain/loss` is `+inf`, `100/(1 + inf) = 0`, and the RSI is exactly
`100`; when `loss = 0` and `gain = 0` the quotient is NaN and the RSI is NaN
(`none`); a NaN in either input propagates. -/
def rsiFromGL (g l : Option ℚ) : Option ℚ :=
  match g, l with
  | some g, some l =>
    if l = 0 then (if g = 0 then none else some 100)
    else some (100 - 100 / (1 + g / l))
  | _, _ => none

/-- The `RSI` column of `calculate_technical_indicators`: 14-window rolling
means of the positive and negative parts of `Close.diff()`, combined by
`100 - 100/(1 + gain/loss)`. -/
def rsiList (closes : List ℚ) : List (Option ℚ) :=
  List.zipWith rsiFromGL (rollingMean 14 (gainRaw closes)) (rollingMean 14 (lossRaw closes))

/-- Accumulator recursion behind `series.ewm(span=s).mean()` with the pandas
default `adjust=True`: `num_t = β·num_(t-1) + x_t`, `den_t = β·den_(t-1) + 1`
with `β = 1 - α`, and output `num_t / den_t`. -/
def ewmAux (β : ℚ) : ℚ → ℚ → List ℚ → List ℚ
  | _, _, [] => []
  | num, den, x :: rest =>
    ((β * num + x) / (β * den + 1)) :: ewmAux β (β * num + x) (β * den + 1) rest

/-- Embedding of `series.ewm(span=span).mean()` (pandas defaults
`adjust=True`, `min_periods=0`): the decay is `β = 1 - α` with
`α = 2/(span+1)`, and every index holds the weighted average
`Σ β^j·x_(t-j) / Σ β^j` over the full available history. -/
def ewmMean (span : ℚ) (xs : List ℚ) : List ℚ :=
  ewmAux (1 - 2 / (span + 1)) 0 0 xs

/-- `df['MACD'] = exp1 - exp2` with `exp1 = Close.ewm(span=12).mean()` and
`exp2 = Close.ewm(span=26).mean()`. -/
def macdLine (closes : List ℚ) : List ℚ :=
  List.zipWith (fun a b => a - b) (ewmMean 12 closes) (ewmMean 26 closes)

/-- `df['MACD_Signal'] = df['MACD'].ewm(span=9).mean()`. -/
def macdSignal (closes : List ℚ) : List ℚ :=
  ewmMean 9 (macdLine closes)

/-- `df['MACD_Histogram'] = df['MACD'] - df['MACD_Signal']`. -/
def macdHistogram (closes : List ℚ) : List ℚ :=
  List.zipWith (fun a b => a - b) (macdLine closes) (macdSignal closes)

/-- `df['MA_5'] = df['Close'].rolling(window=5).mean()`. -/
def ma5 (closes : List ℚ) : List (Option ℚ) := rollingMean 5 closes

/-- `df['MA_20'] = df['Close'].rolling(window=20).mean()`. -/
def ma20 (closes : List ℚ) : List (Option ℚ) := rollingMean 20 closes

/-- `df['MA_50'] = df['Close'].rolling(window=50).mean()`. -/
def ma50 (closes : List ℚ) : List (Option ℚ) := rollingMean 50 closes

/-- `df['BB_Middle'] = df['Close'].rolling(window=20).mean()`. -/
def bbMiddle (closes : List ℚ) : List (Option ℚ) := rollingMean 20 closes

/-- `bb_std = df['Close'].rolling(window=20).std()`: the real square root of
the 20-window sample variance. -/
noncomputable def bbStd (closes : List ℚ) : List (Option ℝ) :=
  (rollingVar 20 closes).map (Option.map fun v : ℚ => Real.sqrt (v : ℝ))

/-- The `BB_Middle` column viewed in `ℝ`, for comparison with the bands. -/
noncomputable def bbMiddleR (closes : List ℚ) : List (Option ℝ) :=
  (bbMiddle closes).map (Option.map fun q : ℚ => (q : ℝ))

/-- `df['BB_Upper'] = df['BB_Middle'] + (bb_std * 2)`; NaN if either operand
is NaN. -/
noncomputable def bbUpper (closes : List ℚ) : List (Option ℝ) :=
  List.zipWith
    (fun m s =>
      match m, s with
      | some m, some s => some ((m : ℝ) + s * 2)
      | _, _ => none)
    (bbMiddle closes) (bbStd closes)

/-- `df['BB_Lower'] = df['BB_Middle'] - (bb_std * 2)`; NaN if either operand
is NaN. -/
noncomputable def bbLower (closes : List ℚ) : List (Option ℝ) :=
  List.zipWith
    (fun m s =>
      match m, s with
      | some m, some s => some ((m : ℝ) - s * 2)
      | _, _ => none)
    (bbMiddle closes) (bbStd closes)

/-- The derived columns added by `calculate_technical_indicators`.  The input
`Close` column is not part of the output record: the Python function writes
only new columns into a fresh `data.copy()`, so the embedding takes the
closes by value and returns the derived columns. -/
structure TechnicalIndicators where
  ma5 : List (Option ℚ)
  ma20 : List (Option ℚ)
  ma50 : List (Option ℚ)
  rsi : List (Option ℚ)
  bbMiddle : List (Option ℚ)
  bbUpper : List (Option ℝ)
  bbLower : List (Option ℝ)
  macd : List ℚ
  macdSignal : List ℚ
  macdHistogram : List ℚ

/-- Embedding of `calculate_technical_indicators` (the whole function body):
each derived column as computed from the `Close` column. -/
noncomputable def calculateTechnicalIndicators (closes : List ℚ) : TechnicalIndicators :=
  ⟨ma5 closes, ma20 closes, ma50 closes, rsiList closes, bbMiddle closes,
   bbUpper closes, bbLower closes, macdLine closes, macdSignal closes,
   macdHistogram closes⟩

end Dashboard

namespace Exporter

/-- `_categorize_price` from `looker_studio_exporter.py`. -/
def categorizePrice (price : ℚ) : String :=
  if price < 10 then "Low Price"
  else if price < 50 then "Medium Price"
  else if price < 100 then "High Price"
  else "Very High Price"

/-- `_categorize_change` from `looker_studio_exporter.py`. -/
def categorizeChange (changePercent : ℚ) : String :=
  if changePercent < -5 then "Large Decrease"
  else if changePercent < -1 then "Decrease"
  else if changePercent < 1 then "Stable"
  else if changePercent < 5 then "Increase"
  else "Large Increase"

/-- `_categorize_volume` from `looker_studio_exporter.py`: guard
`avg_volume == 0`, then bucket the true-division quotient `volume/avg_volume`. -/
def categorizeVolume (volume avgVolume : ℤ) : String :=
  if avgVolume = 0 then "Unknown"
  else
    let r : ℚ := (volume : ℚ) / (avgVolume : ℚ)
    if r < 0.5 then "Low Volume"
    else if r < 1.5 then "Normal Volume"
    else if r < 3 then "High Volume"
    else "Very High Volume"

/-- The argument of `_categorize_market_cap` in `looker_studio_exporter.py`:
`info.get('marketCap', 'N/A')` is either a number or the string sentinel
`'N/A'`. -/
inductive MarketCapValue where
  | num (v : ℚ)
  | na
deriving DecidableEq

/-- `_categorize_market_cap` from `looker_studio_exporter.py`:
`market_cap == 0 or market_cap == 'N/A'` yields `"Unknown"`, otherwise the
thresholds `2e9 / 10e9 / 200e9` apply. -/
def categorizeMarketCap : MarketCapValue → String
  | .na => "Unknown"
  | .num mc =>
    if mc = 0 then "Unknown"
    else if mc < 2e9 then "Small Cap"
    else if mc < 10e9 then "Mid Cap"
    else if mc < 200e9 then "Large Cap"
    else "Mega Cap"

/-- Round-half-to-even on rationals, the tie-breaking rule of Python's
built-in `round`. -/
def roundHalfEven (q : ℚ) : ℤ :=
  let f := ⌊q⌋
  let frac := q - f
  if frac < 1 / 2 then f
  else if 1 / 2 < frac then f + 1
  else if Even f then f else f + 1

/-- Python's `round(q, 2)` on an exact rational value. -/
def roundTo2 (q : ℚ) : ℚ :=
  (roundHalfEven (q * 100) : ℚ) / 100

/-- The volatility field of `get_enhanced_stock_data` (line 81):
`round(((day_high - day_low) / current_price) * 100, 2) if current_price != 0
else 0`. -/
def volatility (dayHigh dayLow currentPrice : ℚ) : ℚ :=
  if currentPrice ≠ 0 then roundTo2 ((dayHigh - dayLow) / currentPrice * 100) else 0

end Exporter

namespace Optimized

/-- `_categorize_volume` from `looker_studio_optimized.py`. -/
def categorizeVolume (volume avgVolume : ℤ) : String :=
  if avgVolume = 0 then "Unknown"
  else
    let r : ℚ := (volume : ℚ) / (avgVolume : ℚ)
    if r < 0.5 then "Very Low (<50%)"
    else if r < 0.8 then "Low (50%-80%)"
    else if r < 1.2 then "Normal (80%-120%)"
    else if r < 2 then "High (120%-200%)"
    else "Very High (>200%)"

/-- `_categorize_market_cap` from `looker_studio_optimized.py`: only
`market_cap == 0` yields `"Unknown"`. -/
def categorizeMarketCap (mc : ℚ) : String :=
  if mc = 0 then "Unknown"
  else if mc < 300e6 then "Micro Cap (<$300M)"
  else if mc < 2e9 then "Small Cap ($300M-$2B)"
  else if mc < 10e9 then "Mid Cap ($2B-$10B)"
  else if mc < 200e9 then "Large Cap ($10B-$200B)"
  else "Mega Cap (>$200B)"

/-- `_categorize_volatility` from `looker_studio_optimized.py`. -/
def categorizeVolatility (v : ℚ) : String :=
  if v < 1 then "Very Low (<1%)"
  else if v < 2 then "Low (1%-2%)"
  else if v < 3 then "Medium (2%-3%)"
  else if v < 5 then "High (3%-5%)"
  else "Very High (>5%)"

/-- The value handed to `_categorize_volatility` in
`get_optimized_stock_data`:
`((day_high - day_low) / current_price) * 100 if current_price != 0 else 0`. -/
def volatilityValue (dayHigh dayLow currentPrice : ℚ) : ℚ :=
  if currentPrice ≠ 0 then (dayHigh - dayLow) / currentPrice * 100 else 0

end Optimized

/-- Subtraction of two possibly-NaN column entries, NaN-propagating, used to
state the Bollinger symmetry property. -/
def osub (a b : Option ℝ) : Option ℝ :=
  match a, b with
  | some a, some b => some (a - b)
  | _, _ => none

namespace Dashboard

theorem rollingMean_length (w : ℕ) (xs : List ℚ) :
    (rollingMean w xs).length = xs.length := by
  simp [rollingMean]

theorem rollingVar_length (w : ℕ) (xs : List ℚ) :
    (rollingVar w xs).length = xs.length := by
  simp [rollingVar]

theorem rollingMean_getElem?_invalid (w : ℕ) (xs : List ℚ) (i : ℕ)
    (hi : i < xs.length) (hw : i + 1 < w) :
    (rollingMean w xs)[i]? = some none := by
  simp [rollingMean, List.getElem?_map, List.getElem?_range hi, hw]

theorem rollingMean_getElem?_valid (w : ℕ) (xs : List ℚ) (i : ℕ)
    (hi : i < xs.length) (hw : w ≤ i + 1) :
    (rollingMean w xs)[i]? =
      some (some (((xs.take (i + 1)).drop (i + 1 - w)).sum / (w : ℚ))) := by
  simp [rollingMean, List.getElem?_map, List.getElem?_range hi, Nat.not_lt.mpr hw]

theorem rollingVar_getElem?_invalid (w : ℕ) (xs : List ℚ) (i : ℕ)
    (hi : i < xs.length) (hw : i + 1 < w) :
    (rollingVar w xs)[i]? = some none := by
  simp [rollingVar, List.getElem?_map, List.getElem?_range hi, hw]

theorem rollingVar_getElem?_valid (w : ℕ) (xs : List ℚ) (i : ℕ)
    (hi : i < xs.length) (hw : w ≤ i + 1) :
    (rollingVar w xs)[i]? =
      some (some
        ((((xs.take (i + 1)).drop (i + 1 - w)).map
            (fun x => (x - ((xs.take (i + 1)).drop (i + 1 - w)).sum / (w : ℚ)) ^ 2)).sum
          / ((w : ℚ) - 1))) := by
  simp [rollingVar, List.getElem?_map, List.getElem?_range hi, Nat.not_lt.mpr hw]

theorem gainRaw_length (xs : List ℚ) : (gainRaw xs).length = xs.length := by
  cases xs with
  | nil => rfl
  | cons x tail => simp [gainRaw]

theorem lossRaw_length (xs : List ℚ) : (lossRaw xs).length = xs.length := by
  cases xs with
  | nil => rfl
  | cons x tail => simp [lossRaw]

theorem ewmAux_length (β : ℚ) (n d : ℚ) (xs : List ℚ) :
    (ewmAux β n d xs).length = xs.length := by
  induction xs generalizing n d with
  | nil => rfl
  | cons x rest ih => simp [ewmAux, ih]

theorem ewmMean_length (span : ℚ) (xs : List ℚ) :
    (ewmMean span xs).length = xs.length := by
  simp [ewmMean, ewmAux_length]

theorem list_sum_eq_sum_range (l : List ℚ) :
    l.sum = ∑ j ∈ Finset.range l.length, l.getD j 0 := by
  induction l with
  | nil => simp
  | cons x t ih =>
    rw [List.sum_cons, List.length_cons, Finset.sum_range_succ' (fun j => (x :: t).getD j 0)]
    simp [ih]
    ring

theorem window_length (w : ℕ) (xs : List ℚ) (i : ℕ)
    (hi : i < xs.length) (hw : w ≤ i + 1) :
    ((xs.take (i + 1)).drop (i + 1 - w)).length = w := by
  simp [List.length_take, List.length_drop]
  omega

theorem window_getD (w : ℕ) (xs : List ℚ) (i j : ℕ)
    (hw : w ≤ i + 1) (hj : j < w) :
    ((xs.take (i + 1)).drop (i + 1 - w)).getD j 0 = xs.getD (i + 1 - w + j) 0 := by
  rw [List.getD_eq_getElem?_getD, List.getD_eq_getElem?_getD, List.getElem?_drop,
    List.getElem?_take_of_lt (by omega)]

theorem window_sum (w : ℕ) (xs : List ℚ) (i : ℕ)
    (hi : i < xs.length) (hw : w ≤ i + 1) :
    ((xs.take (i + 1)).drop (i + 1 - w)).sum =
      ∑ j ∈ Finset.range w, xs.getD (i + 1 - w + j) 0 := by
  rw [list_sum_eq_sum_range, window_length w xs i hi hw]
  exact Finset.sum_congr rfl fun j hj => window_getD w xs i j hw (Finset.mem_range.mp hj)

/-- Claim C8: the simple moving average with window `w` at each index `i ≥ w − 1`
equals the arithmetic mean of the trailing `w` closes
`closes[i-w+1..i]`; over a constant series of value `v` the moving average
equals `v` at every valid index. -/
theorem sma_trailing_window_mean (w i n : ℕ) (v : ℚ) (xs : List ℚ)
    (hw : 1 ≤ w) (hi : w - 1 ≤ i) :
    (i < xs.length →
      (rollingMean w xs)[i]? =
        some (some ((∑ j ∈ Finset.range w, xs.getD (i + 1 - w + j) 0) / (w : ℚ)))) ∧
    (i < n → (rollingMean w (List.replicate n v))[i]? = some (some v)) := by
  have hw' : w ≤ i + 1 := by omega
  constructor
  · intro hlen
    rw [rollingMean_getElem?_valid w xs i hlen hw', window_sum w xs i hlen hw']
  · intro hn
    have hlen : i < (List.replicate n v).length := by simpa using hn
    rw [rollingMean_getElem?_valid w (List.replicate n v) i hlen hw',
      window_sum w (List.replicate n v) i hlen hw']
    have hgd : ∀ j ∈ Finset.range w, (List.replicate n v).getD (i + 1 - w + j) 0 = v := by
      intro j hj
      have hj' : j < w := Finset.mem_range.mp hj
      have : i + 1 - w + j < n := by omega
      simp [List.getD_eq_getElem?_getD, List.getElem?_replicate, this]
    rw [Finset.sum_congr rfl hgd, Finset.sum_const, Finset.card_range, nsmul_eq_mul]
    have : (w : ℚ) ≠ 0 := Nat.cast_ne_zero.mpr (by omega)
    rw [mul_comm, mul_div_assoc, div_self this, mul_one]

/-- Claim C8 witness: window 2 over `[3, 5]` yields the mean `4` at index 1,
and over the constant series `[7, 7]` yields `7`. -/
theorem sma_trailing_window_mean_witness :
    ((rollingMean 2 [3, 5])[1]? =
      some (some ((∑ j ∈ Finset.range 2, ([3, 5] : List ℚ).getD (1 + 1 - 2 + j) 0) / (2 : ℚ)))) ∧
    (rollingMean 2 (List.replicate 2 (7 : ℚ)))[1]? = some (some 7) :=
  ⟨(sma_trailing_window_mean 2 1 2 7 [3, 5] (by decide) (by decide)).1 (by decide),
   (sma_trailing_window_mean 2 1 2 (7 : ℚ) [3, 5] (by decide) (by decide)).2 (by decide)⟩

theorem zipWith_nonneg (f : ℚ → ℚ → ℚ) (hf : ∀ a b, 0 ≤ f a b) :
    ∀ (as bs : List ℚ), ∀ y ∈ List.zipWith f as bs, 0 ≤ y := by
  intro as
  induction as with
  | nil => intro bs y hy; simp at hy
  | cons a tl ih =>
    intro bs y hy
    cases bs with
    | nil => simp at hy
    | cons b btl =>
      rcases List.mem_cons.mp hy with h | h
      · rw [h]; exact hf a b
      · exact ih btl y h

theorem gainRaw_nonneg (xs : List ℚ) : ∀ y ∈ gainRaw xs, 0 ≤ y := by
  cases xs with
  | nil => intro y hy; simp [gainRaw] at hy
  | cons x tail =>
    intro y hy
    rcases List.mem_cons.mp hy with h | h
    · rw [h]
    · refine zipWith_nonneg _ (fun a b => ?_) tail (x :: tail) y h
      by_cases hab : 0 < a - b
      · simp only [if_pos hab]; linarith
      · simp [hab]

theorem lossRaw_nonneg (xs : List ℚ) : ∀ y ∈ lossRaw xs, 0 ≤ y := by
  cases xs with
  | nil => intro y hy; simp [lossRaw] at hy
  | cons x tail =>
    intro y hy
    rcases List.mem_cons.mp hy with h | h
    · rw [h]
    · refine zipWith_nonneg _ (fun a b => ?_) tail (x :: tail) y h
      by_cases hab : a - b < 0
      · simp only [if_pos hab]; linarith
      · simp [hab]

theorem rollingMean_nonneg (w : ℕ) (xs : List ℚ) (hxs : ∀ y ∈ xs, 0 ≤ y)
    (i : ℕ) (q : ℚ) (h : (rollingMean w xs)[i]? = some (some q)) : 0 ≤ q := by
  by_cases hi : i < xs.length
  · by_cases hw : i + 1 < w
    · rw [rollingMean_getElem?_invalid w xs i hi hw] at h
      simp at h
    · rw [rollingMean_getElem?_valid w xs i hi (by omega)] at h
      have hq : (((xs.take (i + 1)).drop (i + 1 - w)).sum / (w : ℚ)) = q := by
        simpa using h
      rw [← hq]
      refine div_nonneg (List.sum_nonneg fun y hy => ?_) (by positivity)
      exact hxs y (List.take_subset (i + 1) xs (List.drop_subset (i + 1 - w) _ hy))
  · rw [List.getElem?_eq_none (by rw [rollingMean_length]; omega)] at h
    simp at h

/-- Claim C1: every defined RSI value lies in `[0, 100]`; when the 14-bar average
loss is `0` and the average gain positive (an all-gains window) the RSI
saturates to exactly `100` instead of failing on the division
`avg_gain/avg_loss`; when the average gain is `0` and the average loss
positive (an all-losses window) the RSI is exactly `0`. -/
theorem rsi_bounded_and_saturating (closes : List ℚ) (i : ℕ) (x g : ℚ) :
    ((rsiList closes)[i]? = some (some x) → 0 ≤ x ∧ x ≤ 100) ∧
    ((rollingMean 14 (gainRaw closes))[i]? = some (some g) →
      (rollingMean 14 (lossRaw closes))[i]? = some (some 0) → 0 < g →
      (rsiList closes)[i]? = some (some 100)) ∧
    ((rollingMean 14 (gainRaw closes))[i]? = some (some 0) →
      (rollingMean 14 (lossRaw closes))[i]? = some (some g) → 0 < g →
      (rsiList closes)[i]? = some (some 0)) := by
  refine ⟨?_, ?_, ?_⟩
  · intro h
    rw [rsiList, List.getElem?_zipWith'] at h
    rcases hg : (rollingMean 14 (gainRaw closes))[i]? with _ | a
    · rw [hg] at h; simp at h
    rcases hl : (rollingMean 14 (lossRaw closes))[i]? with _ | b
    · rw [hl] at h; simp at h
    rw [hg, hl] at h
    have hfb : rsiFromGL a b = some x := by simpa using h
    rcases a with _ | gv
    · simp [rsiFromGL] at hfb
    rcases b with _ | lv
    · simp [rsiFromGL] at hfb
    have hgv : 0 ≤ gv := rollingMean_nonneg 14 (gainRaw closes) (gainRaw_nonneg closes) i gv hg
    have hlv : 0 ≤ lv := rollingMean_nonneg 14 (lossRaw closes) (lossRaw_nonneg closes) i lv hl
    by_cases hl0 : lv = 0
    · by_cases hg0 : gv = 0
      · simp [rsiFromGL, hl0, hg0] at hfb
      · have : x = 100 := by simpa [rsiFromGL, hl0, hg0] using hfb.symm
        rw [this]; norm_num
    · have hx : 100 - 100 / (1 + gv / lv) = x := by simpa [rsiFromGL, hl0] using hfb
      have hr : 0 ≤ gv / lv := div_nonneg hgv (lt_of_le_of_ne hlv (Ne.symm hl0)).le
      have h1 : (0 : ℚ) < 1 + gv / lv := by linarith
      have h2 : 100 / (1 + gv / lv) ≤ 100 := div_le_self (by norm_num) (by linarith)
      have h3 : 0 < 100 / (1 + gv / lv) := div_pos (by norm_num) h1
      constructor <;> [linarith [hx, h2]; linarith [hx, h3]]
  · intro hg hl hpos
    rw [rsiList, List.getElem?_zipWith', hg, hl]
    simp [rsiFromGL, ne_of_gt hpos]
  · intro hg hl hpos
    rw [rsiList, List.getElem?_zipWith', hg, hl]
    simp [rsiFromGL, ne_of_gt hpos]

/-- Claim C1 witness: over the strictly increasing closes `1..14` the RSI at
index 13 is defined and equals `100` (average gain `13/14`, average loss
`0`); over the strictly decreasing closes `14..1` it equals `0`; both values
satisfy the `[0, 100]` bound. -/
theorem rsi_bounded_and_saturating_witness :
    ((rsiList [1, 2, 3, 4, 5, 6, 7, 8, 9, 10, 11, 12, 13, 14])[13]? = some (some 100)) ∧
    ((0 : ℚ) ≤ 100 ∧ (100 : ℚ) ≤ 100) ∧
    ((rsiList [14, 13, 12, 11, 10, 9, 8, 7, 6, 5, 4, 3, 2, 1])[13]? = some (some 0)) :=
  have h100 : (rsiList [1, 2, 3, 4, 5, 6, 7, 8, 9, 10, 11, 12, 13, 14])[13]? =
      some (some 100) :=
    (rsi_bounded_and_saturating [1, 2, 3, 4, 5, 6, 7, 8, 9, 10, 11, 12, 13, 14]
      13 100 (13 / 14)).2.1
      (by norm_num [rollingMean, gainRaw, List.range_succ])
      (by norm_num [rollingMean, lossRaw, List.range_succ])
      (by norm_num)
  ⟨h100,
   (rsi_bounded_and_saturating [1, 2, 3, 4, 5, 6, 7, 8, 9, 10, 11, 12, 13, 14]
      13 100 (13 / 14)).1 h100,
   (rsi_bounded_and_saturating [14, 13, 12, 11, 10, 9, 8, 7, 6, 5, 4, 3, 2, 1]
      13 0 (13 / 14)).2.2
      (by norm_num [rollingMean, gainRaw, List.range_succ])
      (by norm_num [rollingMean, lossRaw, List.range_succ])
      (by norm_num)⟩

theorem ewmAux_getElem? (β : ℚ) (xs : List ℚ) :
    ∀ (n d : ℚ) (i : ℕ), i < xs.length →
    (ewmAux β n d xs)[i]? =
      some ((β ^ (i + 1) * n + ∑ j ∈ Finset.range (i + 1), β ^ (i - j) * xs.getD j 0) /
            (β ^ (i + 1) * d + ∑ j ∈ Finset.range (i + 1), β ^ j)) := by
  induction xs with
  | nil => intro n d i hi; simp at hi
  | cons x rest ih =>
    intro n d i hi
    cases i with
    | zero =>
      simp only [ewmAux, List.getElem?_cons_zero]
      refine congrArg some ?_
      rw [Finset.sum_range_one, Finset.sum_range_one]
      simp only [Nat.sub_zero, pow_zero, pow_one, List.getD_cons_zero, one_mul]
      congr 1 <;> ring
    | succ i =>
      have hi' : i < rest.length := by simpa using hi
      simp only [ewmAux, List.getElem?_cons_succ]
      rw [ih (β * n + x) (β * d + 1) i hi']
      refine congrArg some ?_
      congr 1
      · rw [Finset.sum_range_succ' (fun j => β ^ (i + 1 - j) * (x :: rest).getD j 0) (i + 1)]
        simp only [Nat.succ_sub_succ, List.getD_cons_succ, List.getD_cons_zero, Nat.sub_zero]
        ring
      · conv_rhs => rw [Finset.sum_range_succ (fun j => β ^ j) (i + 1)]
        ring

/-- Claim C5 amended: the EMAs produced by `ewm(span=s).mean()` satisfy
`EMA[0] = closes[0]`, but not the fixed-coefficient recurrence
`EMA[i] = α·closes[i] + (1−α)·EMA[i-1]`; pandas defaults to `adjust=True`,
so each value is the weighted mean
`Σ_(j≤i) (1−α)^(i−j)·closes[j] / Σ_(j≤i) (1−α)^j` with `α = 2/(span+1)`. -/
theorem ewm_adjusted_weighted_mean (span : ℚ) (xs : List ℚ) (i : ℕ) (hi : i < xs.length) :
    ((ewmMean span xs)[i]? =
      some ((∑ j ∈ Finset.range (i + 1), (1 - 2 / (span + 1)) ^ (i - j) * xs.getD j 0) /
            (∑ j ∈ Finset.range (i + 1), (1 - 2 / (span + 1)) ^ j))) ∧
    (ewmMean span xs)[0]? = some (xs.getD 0 0) := by
  constructor
  · rw [ewmMean, ewmAux_getElem? (1 - 2 / (span + 1)) xs 0 0 i hi]
    norm_num
  · have h0 : 0 < xs.length := Nat.lt_of_le_of_lt (Nat.zero_le i) hi
    rw [ewmMean, ewmAux_getElem? (1 - 2 / (span + 1)) xs 0 0 0 h0]
    norm_num

/-- Claim C5 counterexample: for `closes = [0, 1]` and the fast span 12
(`α = 2/13`), the code's `ewm(span=12).mean()` value at index 1 is `13/24`,
while the spec's recurrence `α·closes[1] + (1−α)·EMA[0]` yields `2/13`
(here `EMA[0] = closes[0] = 0`); the claimed recurrence therefore fails. -/
theorem ewm_recurrence_counterexample :
    ¬ ((ewmMean 12 [0, 1])[1]? =
        some (2 / 13 * (([0, 1] : List ℚ).getD 1 0) +
          (1 - 2 / 13) * ((ewmMean 12 [0, 1]).getD 0 0))) := by
  norm_num [ewmMean, ewmAux]

/-- Claim C5 witness: the amended adjusted-weighted-mean formula evaluated
for `closes = [0, 1]`, span 12, index 1. -/
theorem ewm_adjusted_weighted_mean_witness :
    ((ewmMean 12 [0, 1])[1]? =
      some ((∑ j ∈ Finset.range 2, ((1 : ℚ) - 2 / (12 + 1)) ^ (1 - j) *
              (([0, 1] : List ℚ).getD j 0)) /
            (∑ j ∈ Finset.range 2, ((1 : ℚ) - 2 / (12 + 1)) ^ j))) ∧
    (ewmMean 12 [0, 1])[0]? = some (([0, 1] : List ℚ).getD 0 0) :=
  ewm_adjusted_weighted_mean 12 [0, 1] 1 (by norm_num)

theorem rsiList_length (closes : List ℚ) : (rsiList closes).length = closes.length := by
  simp [rsiList, rollingMean_length, gainRaw_length, lossRaw_length]

theorem bbStd_length (closes : List ℚ) : (bbStd closes).length = closes.length := by
  simp [bbStd, rollingVar_length]

theorem bbMiddleR_length (closes : List ℚ) : (bbMiddleR closes).length = closes.length := by
  simp [bbMiddleR, bbMiddle, rollingMean_length]

theorem bbUpper_length (closes : List ℚ) : (bbUpper closes).length = closes.length := by
  simp [bbUpper, bbMiddle, rollingMean_length, bbStd_length]

theorem bbLower_length (closes : List ℚ) : (bbLower closes).length = closes.length := by
  simp [bbLower, bbMiddle, rollingMean_length, bbStd_length]

theorem macdLine_length (closes : List ℚ) : (macdLine closes).length = closes.length := by
  simp [macdLine, ewmMean_length]

theorem macdSignal_length (closes : List ℚ) : (macdSignal closes).length = closes.length := by
  simp [macdSignal, ewmMean_length, macdLine_length]

theorem macdHistogram_length (closes : List ℚ) :
    (macdHistogram closes).length = closes.length := by
  simp [macdHistogram, macdLine_length, macdSignal_length]

theorem rsiList_getElem?_invalid (closes : List ℚ) (i : ℕ)
    (hi : i < closes.length) (hw : i + 1 < 14) :
    (rsiList closes)[i]? = some none := by
  have hg : (rollingMean 14 (gainRaw closes))[i]? = some none :=
    rollingMean_getElem?_invalid 14 (gainRaw closes) i (by rw [gainRaw_length]; omega) hw
  have hl : (rollingMean 14 (lossRaw closes))[i]? = some none :=
    rollingMean_getElem?_invalid 14 (lossRaw closes) i (by rw [lossRaw_length]; omega) hw
  rw [rsiList, List.getElem?_zipWith', hg, hl]
  rfl

theorem bbStd_getElem?_invalid (closes : List ℚ) (i : ℕ)
    (hi : i < closes.length) (hw : i + 1 < 20) :
    (bbStd closes)[i]? = some none := by
  rw [bbStd, List.getElem?_map, rollingVar_getElem?_invalid 20 closes i hi hw]
  rfl

theorem bbUpper_getElem?_invalid (closes : List ℚ) (i : ℕ)
    (hi : i < closes.length) (hw : i + 1 < 20) :
    (bbUpper closes)[i]? = some none := by
  rw [bbUpper, List.getElem?_zipWith',
    show (bbMiddle closes)[i]? = some none from
      rollingMean_getElem?_invalid 20 closes i hi hw,
    bbStd_getElem?_invalid closes i hi hw]
  rfl

theorem bbLower_getElem?_invalid (closes : List ℚ) (i : ℕ)
    (hi : i < closes.length) (hw : i + 1 < 20) :
    (bbLower closes)[i]? = some none := by
  rw [bbLower, List.getElem?_zipWith',
    show (bbMiddle closes)[i]? = some none from
      rollingMean_getElem?_invalid 20 closes i hi hw,
    bbStd_getElem?_invalid closes i hi hw]
  rfl

theorem all_none_of_pointwise {α : Type} (l : List (Option α))
    (h : ∀ i, i < l.length → l[i]? = some none) : ∀ o ∈ l, o = none := by
  intro o ho
  obtain ⟨i, hi⟩ := List.mem_iff_getElem?.mp ho
  obtain ⟨hlt, _⟩ := List.getElem?_eq_some.mp hi
  have hn := h i hlt
  rw [hi] at hn
  exact Option.some.inj hn

/-- Claim C6: every indicator with a trailing window (`MA_5`, `MA_20`, `MA_50`,
`RSI` with window 14, the Bollinger Bands with window 20) is marked NaN
(`none`), never a numeric default, at every index with fewer than `window`
trailing bars; consequently a series shorter than the window has that
indicator invalid everywhere. -/
theorem insufficient_history_invalid (closes : List ℚ) (i : ℕ) (hi : i < closes.length) :
    (i + 1 < 5 → (ma5 closes)[i]? = some none) ∧
    (i + 1 < 20 → (ma20 closes)[i]? = some none) ∧
    (i + 1 < 50 → (ma50 closes)[i]? = some none) ∧
    (i + 1 < 14 → (rsiList closes)[i]? = some none) ∧
    (i + 1 < 20 → (bbMiddle closes)[i]? = some none) ∧
    (i + 1 < 20 → (bbUpper closes)[i]? = some none) ∧
    (i + 1 < 20 → (bbLower closes)[i]? = some none) ∧
    (closes.length < 5 → ∀ o ∈ ma5 closes, o = none) ∧
    (closes.length < 20 → ∀ o ∈ ma20 closes, o = none) ∧
    (closes.length < 50 → ∀ o ∈ ma50 closes, o = none) ∧
    (closes.length < 14 → ∀ o ∈ rsiList closes, o = none) ∧
    (closes.length < 20 → ∀ o ∈ bbMiddle closes, o = none) ∧
    (closes.length < 20 → ∀ o ∈ bbUpper closes, o = none) ∧
    (closes.length < 20 → ∀ o ∈ bbLower closes, o = none) := by
  refine ⟨fun h => rollingMean_getElem?_invalid 5 closes i hi h,
    fun h => rollingMean_getElem?_invalid 20 closes i hi h,
    fun h => rollingMean_getElem?_invalid 50 closes i hi h,
    fun h => rsiList_getElem?_invalid closes i hi h,
    fun h => rollingMean_getElem?_invalid 20 closes i hi h,
    fun h => bbUpper_getElem?_invalid closes i hi h,
    fun h => bbLower_getElem?_invalid closes i hi h, ?_, ?_, ?_, ?_, ?_, ?_, ?_⟩
  · intro hs
    refine all_none_of_pointwise _ fun k hk => ?_
    simp only [ma5, rollingMean_length] at hk
    exact rollingMean_getElem?_invalid 5 closes k hk (by omega)
  · intro hs
    refine all_none_of_pointwise _ fun k hk => ?_
    simp only [ma20, rollingMean_length] at hk
    exact rollingMean_getElem?_invalid 20 closes k hk (by omega)
  · intro hs
    refine all_none_of_pointwise _ fun k hk => ?_
    simp only [ma50, rollingMean_length] at hk
    exact rollingMean_getElem?_invalid 50 closes k hk (by omega)
  · intro hs
    refine all_none_of_pointwise _ fun k hk => ?_
    rw [rsiList_length] at hk
    exact rsiList_getElem?_invalid closes k hk (by omega)
  · intro hs
    refine all_none_of_pointwise _ fun k hk => ?_
    simp only [bbMiddle, rollingMean_length] at hk
    exact rollingMean_getElem?_invalid 20 closes k hk (by omega)
  · intro hs
    refine all_none_of_pointwise _ fun k hk => ?_
    rw [bbUpper_length] at hk
    exact bbUpper_getElem?_invalid closes k hk (by omega)
  · intro hs
    refine all_none_of_pointwise _ fun k hk => ?_
    rw [bbLower_length] at hk
    exact bbLower_getElem?_invalid closes k hk (by omega)

/-- Claim C6 witness: over the 3-bar series `[1, 2, 3]`, index 1 has fewer
than 5 (resp. 14, 20) trailing bars, so `MA_5`, `RSI` and the Bollinger
columns are all NaN there. -/
theorem insufficient_history_invalid_witness :
    ((ma5 [1, 2, 3])[1]? = some none) ∧
    ((ma20 [1, 2, 3])[1]? = some none) ∧
    ((ma50 [1, 2, 3])[1]? = some none) ∧
    ((rsiList [1, 2, 3])[1]? = some none) ∧
    ((bbMiddle [1, 2, 3])[1]? = some none) ∧
    ((bbUpper [1, 2, 3])[1]? = some none) ∧
    ((bbLower [1, 2, 3])[1]? = some none) :=
  have h := insufficient_history_invalid [1, 2, 3] 1 (by norm_num)
  ⟨h.1 (by norm_num), h.2.1 (by norm_num), h.2.2.1 (by norm_num),
   h.2.2.2.1 (by norm_num), h.2.2.2.2.1 (by norm_num),
   h.2.2.2.2.2.1 (by norm_num), h.2.2.2.2.2.2.1 (by norm_num)⟩

theorem bb_entries_valid (closes : List ℚ) (i : ℕ)
    (hi : i < closes.length) (hw : 20 ≤ i + 1) :
    ∃ m v : ℚ,
      (bbMiddle closes)[i]? = some (some m) ∧
      (bbStd closes)[i]? = some (some (Real.sqrt (v : ℝ))) ∧
      (bbUpper closes)[i]? = some (some ((m : ℝ) + Real.sqrt (v : ℝ) * 2)) ∧
      (bbLower closes)[i]? = some (some ((m : ℝ) - Real.sqrt (v : ℝ) * 2)) ∧
      (bbMiddleR closes)[i]? = some (some (m : ℝ)) := by
  obtain ⟨mv, hmv⟩ : ∃ x, (bbMiddle closes)[i]? = some (some x) :=
    ⟨_, rollingMean_getElem?_valid 20 closes i hi hw⟩
  obtain ⟨vv, hvv⟩ : ∃ x, (rollingVar 20 closes)[i]? = some (some x) :=
    ⟨_, rollingVar_getElem?_valid 20 closes i hi hw⟩
  refine ⟨mv, vv, hmv, ?_, ?_, ?_, ?_⟩
  · rw [bbStd, List.getElem?_map, hvv]; rfl
  · rw [bbUpper, List.getElem?_zipWith', hmv, bbStd, List.getElem?_map, hvv]; rfl
  · rw [bbLower, List.getElem?_zipWith', hmv, bbStd, List.getElem?_map, hvv]; rfl
  · rw [bbMiddleR, List.getElem?_map, hmv]; rfl

theorem bollinger_entry_cases (closes : List ℚ) (i : ℕ) :
    ((bbUpper closes).getD i none = none ∧ (bbMiddleR closes).getD i none = none ∧
      (bbLower closes).getD i none = none ∧ (bbStd closes).getD i none = none) ∨
    (∃ m v : ℚ,
      (bbUpper closes).getD i none = some ((m : ℝ) + Real.sqrt (v : ℝ) * 2) ∧
      (bbMiddleR closes).getD i none = some ((m : ℝ)) ∧
      (bbLower closes).getD i none = some ((m : ℝ) - Real.sqrt (v : ℝ) * 2) ∧
      (bbStd closes).getD i none = some (Real.sqrt (v : ℝ))) := by
  by_cases hi : i < closes.length
  · by_cases hw : i + 1 < 20
    · left
      refine ⟨?_, ?_, ?_, ?_⟩
      · rw [List.getD_eq_getElem?_getD, bbUpper_getElem?_invalid closes i hi hw]; rfl
      · rw [List.getD_eq_getElem?_getD, bbMiddleR, List.getElem?_map,
          show (bbMiddle closes)[i]? = some none from
            rollingMean_getElem?_invalid 20 closes i hi hw]
        rfl
      · rw [List.getD_eq_getElem?_getD, bbLower_getElem?_invalid closes i hi hw]; rfl
      · rw [List.getD_eq_getElem?_getD, bbStd_getElem?_invalid closes i hi hw]; rfl
    · right
      obtain ⟨m, v, h1, h2, h3, h4, h5⟩ := bb_entries_valid closes i hi (by omega)
      exact ⟨m, v, by rw [List.getD_eq_getElem?_getD, h3]; rfl,
        by rw [List.getD_eq_getElem?_getD, h5]; rfl,
        by rw [List.getD_eq_getElem?_getD, h4]; rfl,
        by rw [List.getD_eq_getElem?_getD, h2]; rfl⟩
  · left
    have hn : ¬ i < closes.length := hi
    refine ⟨?_, ?_, ?_, ?_⟩
    · exact List.getD_eq_default _ _ (by rw [bbUpper_length]; omega)
    · exact List.getD_eq_default _ _ (by rw [bbMiddleR_length]; omega)
    · exact List.getD_eq_default _ _ (by rw [bbLower_length]; omega)
    · exact List.getD_eq_default _ _ (by rw [bbStd_length]; omega)

/-- Claim C7: the Bollinger middle band is exactly the 20-window SMA column
(`MA_20`), and the bands are symmetric about it: at every index,
`upper − middle = middle − lower`, both equal to twice the 20-window rolling
standard deviation (all three `none` together where the window is not yet
full). -/
theorem bollinger_middle_and_symmetry (closes : List ℚ) (i : ℕ) :
    bbMiddle closes = ma20 closes ∧
    osub ((bbUpper closes).getD i none) ((bbMiddleR closes).getD i none) =
      osub ((bbMiddleR closes).getD i none) ((bbLower closes).getD i none) ∧
    osub ((bbUpper closes).getD i none) ((bbMiddleR closes).getD i none) =
      ((bbStd closes).getD i none).map (fun s => s * 2) := by
  refine ⟨rfl, ?_, ?_⟩
  · rcases bollinger_entry_cases closes i with ⟨h1, h2, h3, h4⟩ | ⟨m, v, h1, h2, h3, h4⟩
    · rw [h1, h2, h3]
    · rw [h1, h2, h3]
      exact congrArg some (by ring)
  · rcases bollinger_entry_cases closes i with ⟨h1, h2, h3, h4⟩ | ⟨m, v, h1, h2, h3, h4⟩
    · rw [h1, h2, h4]; rfl
    · rw [h1, h2, h4]
      exact congrArg some (by ring)

/-- Claim C9: `calculate_technical_indicators` is an input-preserving pure
function of the `Close` series (the embedding is a total function of its
argument, mirroring the Python code's `data.copy()` before any write), and
every derived column it produces has exactly the length — hence the
index-for-index alignment — of the input series. -/
theorem indicators_length_aligned (closes : List ℚ) :
    (calculateTechnicalIndicators closes).ma5.length = closes.length ∧
    (calculateTechnicalIndicators closes).ma20.length = closes.length ∧
    (calculateTechnicalIndicators closes).ma50.length = closes.length ∧
    (calculateTechnicalIndicators closes).rsi.length = closes.length ∧
    (calculateTechnicalIndicators closes).bbMiddle.length = closes.length ∧
    (calculateTechnicalIndicators closes).bbUpper.length = closes.length ∧
    (calculateTechnicalIndicators closes).bbLower.length = closes.length ∧
    (calculateTechnicalIndicators closes).macd.length = closes.length ∧
    (calculateTechnicalIndicators closes).macdSignal.length = closes.length ∧
    (calculateTechnicalIndicators closes).macdHistogram.length = closes.length :=
  ⟨rollingMean_length 5 closes, rollingMean_length 20 closes, rollingMean_length 50 closes,
   rsiList_length closes, rollingMean_length 20 closes, bbUpper_length closes,
   bbLower_length closes, macdLine_length closes, macdSignal_length closes,
   macdHistogram_length closes⟩

end Dashboard

/-- Claim C2: boundary values land in the upper bucket: price exactly 10 is
"Medium Price" (not "Low Price"), price exactly 50 is "High Price", change
percent exactly −5 is "Decrease" (not "Large Decrease"), and market cap
exactly `2e9` is "Mid Cap" (not "Small Cap"). -/
theorem categorizer_boundary_values :
    Exporter.categorizePrice 10 = "Medium Price" ∧
    Exporter.categorizePrice 10 ≠ "Low Price" ∧
    Exporter.categorizePrice 50 = "High Price" ∧
    Exporter.categorizeChange (-5) = "Decrease" ∧
    Exporter.categorizeChange (-5) ≠ "Large Decrease" ∧
    Exporter.categorizeMarketCap (.num 2e9) = "Mid Cap" ∧
    Exporter.categorizeMarketCap (.num 2e9) ≠ "Small Cap" := by
  have hp : Exporter.categorizePrice 10 = "Medium Price" := by
    norm_num [Exporter.categorizePrice]
  have hc : Exporter.categorizeChange (-5) = "Decrease" := by
    norm_num [Exporter.categorizeChange]
  have hm : Exporter.categorizeMarketCap (.num 2e9) = "Mid Cap" := by
    norm_num [Exporter.categorizeMarketCap]
  refine ⟨hp, ?_, by norm_num [Exporter.categorizePrice], hc, ?_, hm, ?_⟩
  · rw [hp]; decide
  · rw [hc]; decide
  · rw [hm]; decide

/-- Claim C3 amended: both volume categorizers are total — every integer volume
and average volume yields exactly one of the five labels, and
`avg_volume = 0` yields "Unknown" — but a strictly negative average volume
is NOT mapped to "Unknown": the code only guards `avg_volume == 0` and
otherwise buckets the signed ratio. -/
theorem volume_categorizer_total (v a : ℤ) :
    (Exporter.categorizeVolume v a = "Unknown" ∨
     Exporter.categorizeVolume v a = "Low Volume" ∨
     Exporter.categorizeVolume v a = "Normal Volume" ∨
     Exporter.categorizeVolume v a = "High Volume" ∨
     Exporter.categorizeVolume v a = "Very High Volume") ∧
    Exporter.categorizeVolume v 0 = "Unknown" ∧
    (Optimized.categorizeVolume v a = "Unknown" ∨
     Optimized.categorizeVolume v a = "Very Low (<50%)" ∨
     Optimized.categorizeVolume v a = "Low (50%-80%)" ∨
     Optimized.categorizeVolume v a = "Normal (80%-120%)" ∨
     Optimized.categorizeVolume v a = "High (120%-200%)" ∨
     Optimized.categorizeVolume v a = "Very High (>200%)") ∧
    Optimized.categorizeVolume v 0 = "Unknown" := by
  refine ⟨?_, by simp [Exporter.categorizeVolume], ?_, by simp [Optimized.categorizeVolume]⟩
  · simp only [Exporter.categorizeVolume]
    split_ifs <;> simp
  · simp only [Optimized.categorizeVolume]
    split_ifs <;> simp

/-- Claim C3 counterexample: for `volume = 100` and `average_volume = −100`
(a non-positive average volume), the exporter returns "Low Volume" — the
ratio `−1` falls through to the ratio buckets — and not "Unknown", refuting
the claim that every `average_volume ≤ 0` maps to "Unknown". -/
theorem volume_categorizer_negative_avg_counterexample :
    (-100 : ℤ) ≤ 0 ∧
    Exporter.categorizeVolume 100 (-100) = "Low Volume" ∧
    Exporter.categorizeVolume 100 (-100) ≠ "Unknown" ∧
    Optimized.categorizeVolume 100 (-100) = "Very Low (<50%)" ∧
    Optimized.categorizeVolume 100 (-100) ≠ "Unknown" := by
  norm_num [Exporter.categorizeVolume, Optimized.categorizeVolume]
  decide

/-- Claim C4 amended: the volatility is `0` when the price is exactly `0` (the
code guards `current_price != 0`, not `≤ 0`), and in that case the
volatility bucket is "Very Low (<1%)"; for every non-zero price — negative
included — the formula `(high − low)/price·100` is applied instead. -/
theorem volatility_zero_price_amended (h l p : ℚ) :
    Exporter.volatility h l 0 = 0 ∧
    Optimized.volatilityValue h l 0 = 0 ∧
    Optimized.categorizeVolatility (Optimized.volatilityValue h l 0) = "Very Low (<1%)" ∧
    (p ≠ 0 → Exporter.volatility h l p = Exporter.roundTo2 ((h - l) / p * 100)) ∧
    (p ≠ 0 → Optimized.volatilityValue h l p = (h - l) / p * 100) := by
  refine ⟨by simp [Exporter.volatility], by simp [Optimized.volatilityValue], ?_,
    fun hp => by simp [Exporter.volatility, hp],
    fun hp => by simp [Optimized.volatilityValue, hp]⟩
  norm_num [Optimized.volatilityValue, Optimized.categorizeVolatility]

/-- Claim C4 witness: a price-0 snapshot gets volatility 0 and bucket
"Very Low (<1%)"; the non-zero-price clauses evaluated at price `−10`. -/
theorem volatility_zero_price_amended_witness :
    Exporter.volatility 5 0 0 = 0 ∧
    Optimized.volatilityValue 5 0 0 = 0 ∧
    Optimized.categorizeVolatility (Optimized.volatilityValue 5 0 0) = "Very Low (<1%)" ∧
    Exporter.volatility 5 0 (-10) = Exporter.roundTo2 ((5 - 0) / (-10) * 100) ∧
    Optimized.volatilityValue 5 0 (-10) = (5 - 0) / (-10) * 100 :=
  ⟨(volatility_zero_price_amended 5 0 (-10)).1,
   (volatility_zero_price_amended 5 0 (-10)).2.1,
   (volatility_zero_price_amended 5 0 (-10)).2.2.1,
   (volatility_zero_price_amended 5 0 (-10)).2.2.2.1 (by norm_num),
   (volatility_zero_price_amended 5 0 (-10)).2.2.2.2 (by norm_num)⟩

/-- Claim C4 counterexample: for `day_high = 5`, `day_low = 0` and the
strictly negative price `−10`, the exporter computes volatility `−50`
(the guard is `!= 0`, not `≤ 0`), refuting the claim that every
`price ≤ 0` yields volatility `0`. -/
theorem volatility_negative_price_counterexample :
    (-10 : ℚ) ≤ 0 ∧
    Exporter.volatility 5 0 (-10) = -50 ∧
    Exporter.volatility 5 0 (-10) ≠ 0 ∧
    Optimized.volatilityValue 5 0 (-10) = -50 := by
  norm_num [Exporter.volatility, Exporter.roundTo2, Exporter.roundHalfEven,
    Optimized.volatilityValue]

/-- Claim C10: a strictly negative market cap is bucketed as the smallest cap
tier — "Small Cap" in the exporter, "Micro Cap (<$300M)" in the optimized
exporter — and "Unknown" is produced exactly for market cap `0` (or the
`'N/A'` string sentinel in the exporter). -/
theorem negative_market_cap_smallest_bucket (mc : ℚ) :
    (mc < 0 → Exporter.categorizeMarketCap (.num mc) = "Small Cap") ∧
    (mc < 0 → Optimized.categorizeMarketCap mc = "Micro Cap (<$300M)") ∧
    Exporter.categorizeMarketCap (.num 0) = "Unknown" ∧
    Exporter.categorizeMarketCap .na = "Unknown" ∧
    Optimized.categorizeMarketCap 0 = "Unknown" ∧
    (mc ≠ 0 → Exporter.categorizeMarketCap (.num mc) ≠ "Unknown") ∧
    (mc ≠ 0 → Optimized.categorizeMarketCap mc ≠ "Unknown") := by
  refine ⟨?_, ?_, by simp [Exporter.categorizeMarketCap],
    by simp [Exporter.categorizeMarketCap], by simp [Optimized.categorizeMarketCap], ?_, ?_⟩
  · intro hneg
    have h0 : mc ≠ 0 := ne_of_lt hneg
    have h2 : mc < 2e9 := lt_trans hneg (by norm_num)
    simp [Exporter.categorizeMarketCap, h0, h2]
  · intro hneg
    have h0 : mc ≠ 0 := ne_of_lt hneg
    have h3 : mc < 300e6 := lt_trans hneg (by norm_num)
    simp [Optimized.categorizeMarketCap, h0, h3]
  · intro h0
    unfold Exporter.categorizeMarketCap
    simp only [h0, if_false]
    split_ifs <;> simp
  · intro h0
    unfold Optimized.categorizeMarketCap
    simp only [h0, if_false]
    split_ifs <;> simp

/-- Claim C10 witness: market cap `−5` is "Small Cap" in the exporter and
"Micro Cap (<$300M)" in the optimized exporter, and is not "Unknown". -/
theorem negative_market_cap_smallest_bucket_witness :
    Exporter.categorizeMarketCap (.num (-5)) = "Small Cap" ∧
    Optimized.categorizeMarketCap (-5) = "Micro Cap (<$300M)" ∧
    Exporter.categorizeMarketCap (.num (-5)) ≠ "Unknown" ∧
    Optimized.categorizeMarketCap (-5) ≠ "Unknown" :=
  ⟨(negative_market_cap_smallest_bucket (-5)).1 (by norm_num),
   (negative_market_cap_smallest_bucket (-5)).2.1 (by norm_num),
   (negative_market_cap_smallest_bucket (-5)).2.2.2.2.2.1 (by norm_num),
   (negative_market_cap_smallest_bucket (-5)).2.2.2.2.2.2 (by norm_num)⟩

end StockMonitor
